import Mathlib

/-!
Shallow embedding of the BioHack2025 repository (two Streamlit tools:
`app.py`, a DNA sequence matcher, and `biohack.py`, a counterfeit-medicine
checker) together with proofs settling the frozen claims C1-C10.

Modelling conventions:
* Python strings are lists of Unicode code points (`List Nat`); this makes
  Python's `str.upper`, `str.lower` and `str.strip` simple arithmetic on
  codes. All alphabets used by the program are ASCII.
* The Biopython routine `pairwise2.align.localms` is external library code,
  not part of the repository, so it is an abstract parameter (`AlignFn`):
  any function producing a list of alignment tuples.
* pandas tables are lists of structures; `NaN` cells that matter to a claim
  are `Option` values (`none` = NaN).
* A Python run-time error (ZeroDivisionError) is `none` in an `Option`
  result, and is propagated through the best-match loop.
-/

/-- A Python string, as its list of code points (characters are plain
`Nat`). -/
abbrev PyStr := List Nat

/-- Code points of a Lean string literal, for concrete examples. -/
def codes (s : String) : PyStr := s.data.map Char.toNat

/-- Python `str.upper` on one ASCII character. -/
def upperChar (c : Nat) : Nat :=
  if 97 ≤ c ∧ c ≤ 122 then c - 32 else c

/-- Python `str.lower` on one ASCII character. -/
def lowerChar (c : Nat) : Nat :=
  if 65 ≤ c ∧ c ≤ 90 then c + 32 else c

/-- Python `str.lower` on a string. -/
def lowerStr (s : PyStr) : PyStr := s.map lowerChar

/-- ASCII whitespace, as stripped by Python `str.strip`. -/
def isSpaceChar (c : Nat) : Bool :=
  c == 9 || c == 10 || c == 11 || c == 12 || c == 13 || c == 32

/-- Python `str.strip`: drop leading and trailing whitespace. -/
def stripStr (s : PyStr) : PyStr :=
  ((s.dropWhile isSpaceChar).reverse.dropWhile isSpaceChar).reverse

/-- Source set `DNA_chars = set("AaCcGgTt")` (app.py line 15). -/
def DNA_chars : List Nat := [65, 97, 67, 99, 71, 103, 84, 116]

/-- Source set `RNA_chars = set("AaCcGgUu")` (app.py line 16). -/
def RNA_chars : List Nat := [65, 97, 67, 99, 71, 103, 85, 117]

/-- Source set `AA_chars = set("ARNDCQEGHILKMPSTWYV")` (app.py line 17). -/
def AA_chars : List Nat :=
  [65, 82, 78, 68, 67, 81, 69, 71, 72, 73, 76, 75, 77, 80, 83, 84, 87, 89, 86]

/-- Outcome of `validate_DNA_sequence`: either the normalized sequence is
returned, or `None` is returned after emitting one of three distinct error
messages (amino-acid, RNA, generic invalid). -/
inductive VResult where
  | accepted (s : PyStr)
  | aminoAcid
  | rna
  | invalid
deriving DecidableEq, Repr

/-- Source function `validate_DNA_sequence` (app.py lines 20-32): uppercase and strip, then
the four-way `if`/`elif` classification, in source order. -/
def validate_DNA_sequence (seq : PyStr) : VResult :=
  let s := stripStr (seq.map upperChar)
  if s.all (fun c => DNA_chars.contains c) then .accepted s
  else if s.all (fun c => AA_chars.contains c) &&
          s.all (fun c => !(RNA_chars.contains c)) then .aminoAcid
  else if s.any (fun c => RNA_chars.contains c) then .rna
  else .invalid

/-- The validator as the claim words it: after normalization, (1) all
characters in uppercase {A,C,G,T} accepts; (2) else all in the amino-acid
alphabet and none in uppercase {A,C,G,U} rejects as amino-acid; (3) else
some character in {A,C,G,U} rejects as RNA; (4) else generic invalid. -/
def validateSpec (seq : PyStr) : VResult :=
  let s := stripStr (seq.map upperChar)
  if s.all (fun c => [65, 67, 71, 84].contains c) then .accepted s
  else if s.all (fun c => AA_chars.contains c) &&
          s.all (fun c => !([65, 67, 71, 85].contains c)) then .aminoAcid
  else if s.any (fun c => [65, 67, 71, 85].contains c) then .rna
  else .invalid

/-- Source expression `input_DNA_sequence.replace("\n", "").replace("\r", "")`
(app.py line 9). -/
def removeNewlines (s : PyStr) : PyStr :=
  s.filter (fun c => c != 10 && c != 13)

/-- One alignment tuple `(seqA, seqB, score, begin, end)` as returned by
`pairwise2.align.localms`. -/
structure AlignmentTriple where
  seqA : PyStr
  seqB : PyStr
  score : ℚ
  startPos : Nat
  endPos : Nat
deriving DecidableEq, Repr

/-- The external alignment routine `pairwise2.align.localms`, abstract:
query, reference, match score, mismatch score, gap-open, gap-extend. -/
abbrev AlignFn := PyStr → PyStr → ℤ → ℤ → ℤ → ℤ → List AlignmentTriple

/-- The gap character `'-'`. -/
def gapChar : Nat := 45

/-- Source expression `matches = sum(1 for a, b in zip(aligned_seq_1, aligned_seq_2)
if a == b and a != '-')` (app.py line 62). -/
def countMatches (a1 a2 : PyStr) : Nat :=
  ((a1.zip a2).filter (fun p => p.1 == p.2 && p.1 != gapChar)).length

/-- Source expression `alignment_length = sum(1 for char in aligned_seq_1 if char != '-')`
(app.py line 65). -/
def alignment_length (a1 : PyStr) : Nat :=
  (a1.filter (fun c => c != gapChar)).length

/-- Source expression `match_percentage = (matches / alignment_length) * 100` (app.py line
68). Python raises ZeroDivisionError when `alignment_length` is zero;
that run-time error is modelled as `none`. -/
def match_percentage (a1 a2 : PyStr) : Option ℚ :=
  if alignment_length a1 = 0 then none
  else some ((countMatches a1 a2 : ℚ) / (alignment_length a1 : ℚ) * 100)

/-- Percent identity as the claim words it: (number of aligned positions
where the two characters are equal and not a gap) divided by (number of
non-gap characters in the query's aligned form), times 100. -/
def specPercentIdentity (a1 a2 : PyStr) : ℚ :=
  (((a1.zip a2).filter (fun p => p.1 == p.2 && p.1 != gapChar)).length : ℚ) /
    ((a1.filter (fun c => c != gapChar)).length : ℚ) * 100

/-- One row of `cancer_genes.csv` (`database`), with the fields the loop
reads: `DNA_seq`, `Gene`, `condition`, `Risk`. -/
structure GeneRow where
  dna : PyStr
  gene : PyStr
  condition : PyStr
  risk : ℤ
deriving DecidableEq, Repr

/-- The running best-match variables (app.py lines 46-50). -/
structure BestState where
  bestPct : ℚ
  bestAlignment : Option AlignmentTriple
  bestGene : Option PyStr
  bestCondition : Option PyStr
  bestRisk : Option ℤ
deriving DecidableEq, Repr

/-- Initial best-match state: `best_match_percentage = 0`, the rest `None`. -/
def initState : BestState :=
  { bestPct := 0, bestAlignment := none, bestGene := none,
    bestCondition := none, bestRisk := none }

/-- The candidate a reference row contributes: `none` when the routine
returns no alignments (`if alignments:` fails, row skipped), otherwise
`some` of the percentage of `alignments[0]` (`some none` = the percentage
computation raises). Scoring scheme fixed at (2, -1, -1, -1)
(app.py lines 40-43, 55). -/
def rowCandidate (af : AlignFn) (query : PyStr) (row : GeneRow) :
    Option (Option ℚ) :=
  match af query row.dna 2 (-1) (-1) (-1) with
  | [] => none
  | al :: _ => some (match_percentage al.seqA al.seqB)

/-- One iteration of the best-match loop body (app.py lines 53-76) from
state `s`; `none` means the iteration raised. The incumbent is replaced
only when `match_percentage > best_match_percentage`. -/
def loopStep (af : AlignFn) (query : PyStr) (s : BestState) (row : GeneRow) :
    Option BestState :=
  match rowCandidate af query row with
  | none => some s
  | some none => none
  | some (some p) =>
      some (if s.bestPct < p then
              { bestPct := p,
                bestAlignment :=
                  (af query row.dna 2 (-1) (-1) (-1)).head?,
                bestGene := some row.gene,
                bestCondition := some row.condition,
                bestRisk := some row.risk }
            else s)

/-- The `for idx, row in database.iterrows()` loop, with a raised error
(`none`) ending the run. -/
def runRows (af : AlignFn) (query : PyStr) (acc : Option BestState) :
    List GeneRow → Option BestState
  | [] => acc
  | row :: rest =>
      runRows af query
        (match acc with
         | none => none
         | some s => loopStep af query s row) rest

/-- Threshold test `best_match_percentage >= 90` (app.py line 78): `true` renders
"Match found!", `false` renders "No match found in database :(". -/
def reportMatch (s : BestState) : Bool :=
  decide (90 ≤ s.bestPct)

/-- The sequence handed to `pairwise2.align.localms` when the search button
runs: the raw input minus newlines (`DNA_sequence_1`), provided the
validator's return value is truthy (not `None` and not the empty string);
`none` means `st.stop()` was reached (app.py lines 34-37, 55). -/
def alignedQuery (input : PyStr) : Option PyStr :=
  let d := removeNewlines input
  match validate_DNA_sequence d with
  | .accepted s => if s = [] then none else some d
  | _ => none

/-! ## biohack.py: counterfeit-medicine checker -/

/-- Regex class `[A-Z]` on a code point. -/
def isUpperCh (c : Nat) : Bool := decide (65 ≤ c ∧ c ≤ 90)

/-- Regex class `[a-z]` on a code point. -/
def isLowerCh (c : Nat) : Bool := decide (97 ≤ c ∧ c ≤ 122)

/-- Regex class `\d` on a code point. -/
def isDigitCh (c : Nat) : Bool := decide (48 ≤ c ∧ c ≤ 57)

/-- Value of a nonempty digit string, as `int` reads it. -/
def digitsVal (ds : PyStr) : Nat :=
  ds.foldl (fun a d => a * 10 + (d - 48)) 0

/-- Source scan `re.findall(r'([A-Z][a-z]*)(\d*)', formula)` (biohack.py line 20):
scan
left to right; at an uppercase letter take it with the following lowercase
letters as the element symbol and the following digits as the count string
(possibly empty); any other character is skipped. -/
def tokenize : PyStr → List (PyStr × PyStr)
  | [] => []
  | c :: rest =>
      if isUpperCh c then
        let lows := rest.takeWhile isLowerCh
        let rest2 := rest.dropWhile isLowerCh
        let digs := rest2.takeWhile isDigitCh
        let rest3 := rest2.dropWhile isDigitCh
        (c :: lows, digs) :: tokenize rest3
      else tokenize rest
termination_by l => l.length
decreasing_by
  · have h2 : (List.dropWhile isLowerCh rest).length ≤ rest.length :=
      (List.dropWhile_sublist isLowerCh).length_le
    have h3 : (List.dropWhile isDigitCh (List.dropWhile isLowerCh rest)).length ≤
        (List.dropWhile isLowerCh rest).length :=
      (List.dropWhile_sublist isDigitCh).length_le
    simp only [List.length_cons]
    omega
  · simp only [List.length_cons]
    omega

/-- Insert-or-add into a Python dict modelled as an association list with
insertion order: `atom_counts[atom] = atom_counts.get(atom, 0) + v`. -/
def addAtom (m : List (PyStr × Nat)) (k : PyStr) (v : Nat) :
    List (PyStr × Nat) :=
  match m with
  | [] => [(k, v)]
  | (k2, v2) :: rest =>
      if k2 = k then (k2, v2 + v) :: rest else (k2, v2) :: addAtom rest k v

/-- Source function `extract_atoms` (biohack.py lines 13-25): tokenize the formula and sum
the counts per element symbol, an absent count meaning 1. (The `not
isinstance(formula, str)` guard is vacuous here: formulas are strings in
this model.) -/
def extract_atoms (f : PyStr) : List (PyStr × Nat) :=
  (tokenize f).foldl
    (fun m kv => addAtom m kv.1 (if kv.2 = [] then 1 else digitsVal kv.2)) []

/-- Dict lookup in the association-list model. -/
def dlookup (k : PyStr) : List (PyStr × Nat) → Option Nat
  | [] => none
  | (k2, v) :: rest => if k2 = k then some v else dlookup k rest

/-- Python dict equality `==` on the association-list model: every binding
of each side is looked up, with the same count, in the other. For lists
with pairwise distinct keys (which `extract_atoms` produces) this is
exactly dict equality. -/
def dictEqB (a b : List (PyStr × Nat)) : Bool :=
  a.all (fun kv => dlookup kv.1 b == some kv.2) &&
    b.all (fun kv => dlookup kv.1 a == some kv.2)

/-- The molecular-formula comparator of the per-drug path (biohack.py line
70): atom-count dicts compared with `==`. -/
def formulaMatch (f1 f2 : PyStr) : Bool :=
  dictEqB (extract_atoms f1) (extract_atoms f2)

/-- Source function `assign_risk` (biohack.py lines 28-43), on the fields of one compared
row: the two match booleans, the stored relative weight difference
`molecular_weight_diff`, and the reference `molecular_weight_(g/mol)`. -/
def assign_risk (aim fm : Bool) (mwDiff mw : ℚ) : String :=
  if aim && fm then
    if mwDiff ≤ 0.02 * mw then "Low Risk"
    else if mwDiff ≤ 0.50 * mw then "Medium Risk"
    else "High Risk"
  else if !aim || !fm then "High Risk"
  else "Unknown"

/-- The risk rule of the bulk path (biohack.py lines 128-136), on the two
booleans and the percent weight difference. -/
def bulkRisk (activeMatch fm : Bool) (weightDiff : ℚ) : String :=
  if activeMatch && fm then
    if weightDiff ≤ 0.2 then "Low"
    else if weightDiff ≤ 5 then "Medium"
    else "High"
  else "High"

/-- One row of `verified_data.csv` after column standardization; a `none`
drug name models a NaN cell. -/
structure VerifiedRow where
  drug_name : Option PyStr
  active_ingredient : PyStr
  molecular_formula : PyStr
  molecular_weight : ℚ
deriving DecidableEq, Repr

/-- The `input_drug` dict built from the four input fields. -/
structure InputDrug where
  drug_name : PyStr
  active_ingredient : PyStr
  molecular_formula : PyStr
  molecular_weight : ℚ
deriving DecidableEq, Repr

/-- One row of the table `compare_drug` returns. -/
structure DrugResult where
  drug_name : Option PyStr
  risk : String
  molecular_weight_diff : ℚ
  active_ingredient_match : Bool
  formula_match : Bool
deriving DecidableEq, Repr

/-- Name filter `verified_data['drug_name'].str.lower() == input_data['drug_name'].lower()`
(biohack.py line 53); on a NaN name `.str.lower()` yields NaN, which
compares unequal to any string. -/
def nameMatch (r : VerifiedRow) (input : InputDrug) : Bool :=
  match r.drug_name with
  | none => false
  | some n => lowerStr n == lowerStr input.drug_name

/-- The per-row computation of `compare_drug` (biohack.py lines 59-73):
active-ingredient equality, relative weight difference
`abs(known - input) / known`, atom-count formula match, and `assign_risk`
of those fields. -/
def compareRow (input : InputDrug) (r : VerifiedRow) : DrugResult :=
  let aim := r.active_ingredient == input.active_ingredient
  let fm := formulaMatch r.molecular_formula input.molecular_formula
  let diff := |r.molecular_weight - input.molecular_weight| / r.molecular_weight
  { drug_name := r.drug_name,
    risk := assign_risk aim fm diff r.molecular_weight,
    molecular_weight_diff := diff,
    active_ingredient_match := aim,
    formula_match := fm }

/-- Source function `compare_drug` (biohack.py lines 46-97): filter the verified table to
the rows whose lowercased name equals the input's, and compute one result
row per match. A missing name gives an empty filter, hence an empty result
table (the source only `print`s a console notice in that case). The
in-place standardization of the global table's column labels (line 50) is
outside this row-content model. -/
def compare_drug (input : InputDrug) (verified : List VerifiedRow) :
    List DrugResult :=
  (verified.filter (fun r => nameMatch r input)).map (compareRow input)

/-- Python `split(', ')`: leftmost non-overlapping splitting on the
two-character separator. -/
def splitCS : PyStr → List PyStr
  | [] => [[]]
  | 44 :: 32 :: rest => [] :: splitCS rest
  | c :: rest =>
      match splitCS rest with
      | [] => [[c]]
      | h :: t => (c :: h) :: t

/-- Python `set(xs) == set(ys)` on lists of strings. -/
def setEqB (a b : List PyStr) : Bool :=
  a.all (fun x => b.contains x) && b.all (fun x => a.contains x)

/-- One row of `counterfeit_data.csv`; a `none` drug name models a NaN
cell. -/
structure CtftRow where
  drug_name : Option PyStr
  active_ingredient : PyStr
  molecular_formula : PyStr
  molecular_weight : ℚ
deriving DecidableEq, Repr

/-- One row of the table `compare_counterfeit_dataset` returns; `none`
fields render as `'N/A'`. The displayed weight difference is
`round(weight_diff, 2)` in the source; the unrounded value is stored here
(rounding is display-only and float-based). -/
structure BulkResult where
  drug_name : PyStr
  risk : String
  formula_match : Option Bool
  weight_diff : Option ℚ
  active_match : Option Bool
deriving DecidableEq, Repr

/-- Column fill `fillna('').astype(str)` on the `drug_name` column of one verified row
(biohack.py line 102): NaN becomes the empty string, strings unchanged. -/
def fillV (r : VerifiedRow) : VerifiedRow :=
  { r with drug_name := some (r.drug_name.getD []) }

/-- Column fill `fillna('').astype(str)` on the `Drug Name` column of one counterfeit
row (biohack.py line 103). -/
def fillC (r : CtftRow) : CtftRow :=
  { r with drug_name := some (r.drug_name.getD []) }

/-- One iteration of the bulk loop (biohack.py lines 105-145): look the
drug name up in the (already filled) verified table; an empty lookup
appends the `'Unknown - Drug not found'` row, otherwise the first matching
row (`iloc[0]`) is compared: raw string equality of formulas, percent
weight difference, set equality of the split active ingredients. -/
def bulkOne (vfilled : List VerifiedRow) (r : CtftRow) : BulkResult :=
  let name := r.drug_name.getD []
  match vfilled.filter
      (fun vr => lowerStr (vr.drug_name.getD []) == lowerStr name) with
  | [] =>
      { drug_name := name, risk := "Unknown - Drug not found",
        formula_match := none, weight_diff := none, active_match := none }
  | vr :: _ =>
      let fm := r.molecular_formula == vr.molecular_formula
      let wd := |r.molecular_weight - vr.molecular_weight| /
        vr.molecular_weight * 100
      let am := setEqB (splitCS r.active_ingredient)
        (splitCS vr.active_ingredient)
      { drug_name := name, risk := bulkRisk am fm wd,
        formula_match := some fm, weight_diff := some wd,
        active_match := some am }

/-- Source function `compare_counterfeit_dataset` (biohack.py lines 99-147): both tables
first have their drug-name columns overwritten in place by
`fillna('').astype(str)`; then one result row is produced per counterfeit
row. The value is (results, verified table after the run, counterfeit
table after the run), the last two components modelling the in-place
mutation of the loaded tables. -/
def compare_counterfeit_dataset (ctft : List CtftRow)
    (verified : List VerifiedRow) :
    List BulkResult × List VerifiedRow × List CtftRow :=
  let vf := verified.map fillV
  let cf := ctft.map fillC
  (cf.map (bulkOne vf), vf, cf)

/-- The add-new-drug path (biohack.py lines 211-219):
`pd.concat([verified_data, new_row])` appends the new row. -/
def addNewDrug (verified : List VerifiedRow) (r : VerifiedRow) :
    List VerifiedRow :=
  verified ++ [r]

/-! ## Shared helper lemmas -/

theorem upperChar_not_lower (c : Nat) : ¬(97 ≤ upperChar c ∧ upperChar c ≤ 122) := by
  unfold upperChar
  by_cases hc : 97 ≤ c ∧ c ≤ 122
  · rw [if_pos hc]; omega
  · rw [if_neg hc]; omega

theorem mem_of_mem_stripStr {c : Nat} {s : PyStr} (h : c ∈ stripStr s) : c ∈ s := by
  unfold stripStr at h
  rw [List.mem_reverse] at h
  have h2 := List.dropWhile_subset isSpaceChar h
  rw [List.mem_reverse] at h2
  exact List.dropWhile_subset isSpaceChar h2

theorem allCongr {l : List Nat} {f g : Nat → Bool} (h : ∀ c ∈ l, f c = g c) :
    l.all f = l.all g := by
  induction l with
  | nil => rfl
  | cons x xs ih =>
      simp only [List.all_cons]
      rw [h x (List.mem_cons_self x xs), ih (fun c hc => h c (List.mem_cons_of_mem x hc))]

theorem anyCongr {l : List Nat} {f g : Nat → Bool} (h : ∀ c ∈ l, f c = g c) :
    l.any f = l.any g := by
  induction l with
  | nil => rfl
  | cons x xs ih =>
      simp only [List.any_cons]
      rw [h x (List.mem_cons_self x xs), ih (fun c hc => h c (List.mem_cons_of_mem x hc))]

theorem dnaContainsEq {c : Nat} (h : ¬(97 ≤ c ∧ c ≤ 122)) :
    DNA_chars.contains c = [65, 67, 71, 84].contains c := by
  have h1 : c ≠ 97 := by omega
  have h2 : c ≠ 99 := by omega
  have h3 : c ≠ 103 := by omega
  have h4 : c ≠ 116 := by omega
  simp [DNA_chars, List.contains_eq_any_beq, h1, h2, h3, h4]

theorem rnaContainsEq {c : Nat} (h : ¬(97 ≤ c ∧ c ≤ 122)) :
    RNA_chars.contains c = [65, 67, 71, 85].contains c := by
  have h1 : c ≠ 97 := by omega
  have h2 : c ≠ 99 := by omega
  have h3 : c ≠ 103 := by omega
  have h4 : c ≠ 117 := by omega
  simp [RNA_chars, List.contains_eq_any_beq, h1, h2, h3, h4]

theorem normalized_not_lower (seq : PyStr) :
    ∀ c ∈ stripStr (seq.map upperChar), ¬(97 ≤ c ∧ c ≤ 122) := by
  intro c hc
  have hm : c ∈ seq.map upperChar := mem_of_mem_stripStr hc
  obtain ⟨c0, _, rfl⟩ := List.mem_map.mp hm
  exact upperChar_not_lower c0

/-! ## C4: validator classification -/

/-- C4: for every raw input string, the validator first uppercases and
strips it, then classifies it into exactly one of four outcomes, tested in
this order: (1) all characters in uppercase {A,C,G,T} — accept and return
the normalized sequence; (2) else all characters in the amino-acid
alphabet and none in {A,C,G,U} — reject with the amino-acid message;
(3) else some character in {A,C,G,U} — reject with the RNA message;
(4) else reject with the generic invalid message. The source tests
membership in the mixed-case sets `DNA_chars`/`RNA_chars`; this theorem
proves that equal to the claim's uppercase-alphabet classification
(`validateSpec`), since normalization leaves no lowercase letters. -/
theorem C4_validator_classification (seq : PyStr) :
    validate_DNA_sequence seq = validateSpec seq := by
  unfold validate_DNA_sequence validateSpec
  dsimp only
  have hs := normalized_not_lower seq
  have hdna : (stripStr (seq.map upperChar)).all (fun c => DNA_chars.contains c) =
      (stripStr (seq.map upperChar)).all (fun c => [65, 67, 71, 84].contains c) :=
    allCongr (fun c hc => dnaContainsEq (hs c hc))
  have hrna1 : (stripStr (seq.map upperChar)).all (fun c => !(RNA_chars.contains c)) =
      (stripStr (seq.map upperChar)).all (fun c => !([65, 67, 71, 85].contains c)) :=
    allCongr (fun c hc => by rw [rnaContainsEq (hs c hc)])
  have hrna2 : (stripStr (seq.map upperChar)).any (fun c => RNA_chars.contains c) =
      (stripStr (seq.map upperChar)).any (fun c => [65, 67, 71, 85].contains c) :=
    anyCongr (fun c hc => rnaContainsEq (hs c hc))
  rw [hdna, hrna1, hrna2]

/-! ## C10: the aligned sequence is the raw input minus newlines -/

/-- C10: for every accepted query, the sequence actually passed to the
alignment routine is the raw user input with only newline and
carriage-return characters removed — not the uppercased, stripped sequence
returned by the validator. The concrete conjuncts show the lowercase input
"atcg" is aligned as "atcg" although the validator returned "ATCG". -/
theorem C10_raw_query_aligned :
    (∀ input q, alignedQuery input = some q → q = removeNewlines input) ∧
    alignedQuery [97, 116, 99, 103] = some [97, 116, 99, 103] ∧
    validate_DNA_sequence [97, 116, 99, 103] = .accepted [65, 84, 67, 71] ∧
    ([97, 116, 99, 103] : PyStr) ≠ [65, 84, 67, 71] := by
  refine ⟨?_, by decide, by decide, by decide⟩
  intro input q h
  unfold alignedQuery at h
  dsimp only at h
  cases hv : validate_DNA_sequence (removeNewlines input) with
  | accepted s =>
      rw [hv] at h
      dsimp only at h
      by_cases hs : s = []
      · rw [if_pos hs] at h; exact absurd h (by simp)
      · rw [if_neg hs] at h; exact (Option.some_inj.mp h).symm
  | aminoAcid => rw [hv] at h; exact absurd h (by simp)
  | rna => rw [hv] at h; exact absurd h (by simp)
  | invalid => rw [hv] at h; exact absurd h (by simp)

/-- Witness for C10 at the concrete input "a\ntcg": the query aligned is
"atcg", the raw input minus the newline. -/
theorem C10_raw_query_aligned_witness :
    ([97, 116, 99, 103] : PyStr) = removeNewlines [97, 10, 116, 99, 103] :=
  C10_raw_query_aligned.1 [97, 10, 116, 99, 103] [97, 116, 99, 103] (by decide)

/-! ## C1: fixed scoring scheme and percent-identity formula -/

/-- C1: for every query and reference row, the best-match selector calls
the alignment routine with the fixed scoring scheme (match=+2,
mismatch=-1, gap-open=-1, gap-extend=-1), takes the first (best-scoring)
alignment it returns, and the candidate percentage equals the claim's
percent-identity formula: matching non-gap positions over non-gap
positions of the aligned query, times 100. -/
theorem C1_scoring_and_percent_identity (af : AlignFn) (q : PyStr) (row : GeneRow)
    (al : AlignmentTriple) (rest : List AlignmentTriple)
    (h : af q row.dna 2 (-1) (-1) (-1) = al :: rest)
    (hlen : alignment_length al.seqA ≠ 0) :
    rowCandidate af q row = some (some (specPercentIdentity al.seqA al.seqB)) := by
  unfold rowCandidate
  rw [h]
  dsimp only
  unfold match_percentage
  rw [if_neg hlen]
  unfold specPercentIdentity countMatches alignment_length
  rfl

/-- Witness for C1 with a concrete alignment routine returning one
alignment of "A" against "A". -/
theorem C1_scoring_and_percent_identity_witness :
    rowCandidate (fun _ _ _ _ _ _ => [⟨[65], [65], 2, 0, 1⟩]) [65] ⟨[65], [71], [67], 5⟩ =
      some (some (specPercentIdentity [65] [65])) :=
  C1_scoring_and_percent_identity (fun _ _ _ _ _ _ => [⟨[65], [65], 2, 0, 1⟩]) [65]
    ⟨[65], [71], [67], 5⟩ ⟨[65], [65], 2, 0, 1⟩ [] rfl (by decide)

/-! ## C3: the 90% match threshold -/

/-- C3: the DNA tool reports a match iff the final best percent identity
is at least 90; a best state holding exactly 90 reports "match found" and
one holding 89.99 reports "no match found", whatever the other fields
(alignment, gene, condition, risk indicator) hold. -/
theorem C3_match_threshold (s : BestState) (al : Option AlignmentTriple)
    (g c : Option PyStr) (r : Option ℤ) :
    (reportMatch s = true ↔ 90 ≤ s.bestPct) ∧
    reportMatch ⟨90, al, g, c, r⟩ = true ∧
    reportMatch ⟨8999/100, al, g, c, r⟩ = false := by
  refine ⟨?_, ?_, ?_⟩
  · unfold reportMatch; exact decide_eq_true_iff
  · unfold reportMatch; norm_num
  · unfold reportMatch; norm_num

/-! ## C7: zero denominator in the percent-identity computation -/

/-- C7 counterexample: the claim says the division is defended against the
all-gap degenerate case with a defined result. It is not: on an aligned
query consisting of one gap the source evaluates
`matches / alignment_length` with a zero denominator, raising a
ZeroDivisionError (modelled `none`) instead of producing a value. -/
theorem C7_unguarded_division : match_percentage [45] [65] = none := by decide

/-- C7 amended: the denominator (`alignment_length`, the non-gap length of
the aligned query) is zero exactly when the aligned query consists
entirely of gaps, and exactly there the percentage computation is
undefined (a ZeroDivisionError) — the source has no guard giving it a
defined result. -/
theorem C7_zero_denominator_characterization (a1 a2 : PyStr) :
    (alignment_length a1 = 0 ↔ ∀ c ∈ a1, c = gapChar) ∧
    (match_percentage a1 a2 = none ↔ alignment_length a1 = 0) := by
  constructor
  · unfold alignment_length
    rw [List.length_eq_zero, List.filter_eq_nil_iff]
    constructor
    · intro h c hc
      have h2 := h c hc
      simpa [gapChar] using h2
    · intro h c hc
      simp [h c hc, gapChar]
  · unfold match_percentage
    by_cases h : alignment_length a1 = 0
    · rw [if_pos h]; simp [h]
    · rw [if_neg h]; simp [h]

/-! ## C2: single incumbent, strict improvement, first-seen ties -/

theorem runRows_none (af : AlignFn) (q : PyStr) (rows : List GeneRow) :
    runRows af q none rows = none := by
  induction rows with
  | nil => rfl
  | cons row rest ih => simp only [runRows]; exact ih

theorem runRows_append (af : AlignFn) (q : PyStr) (xs ys : List GeneRow) :
    ∀ acc, runRows af q acc (xs ++ ys) = runRows af q (runRows af q acc xs) ys := by
  induction xs with
  | nil => intro acc; rfl
  | cons x xs ih =>
      intro acc
      simp only [List.cons_append, runRows]
      exact ih _

theorem loopStep_mono (af : AlignFn) (q : PyStr) (s : BestState) (row : GeneRow)
    (s2 : BestState) (h : loopStep af q s row = some s2) : s.bestPct ≤ s2.bestPct := by
  unfold loopStep at h
  cases hc : rowCandidate af q row with
  | none =>
      rw [hc] at h
      dsimp only at h
      simp only [Option.some_inj] at h
      rw [← h]
  | some o =>
      cases o with
      | none =>
          rw [hc] at h
          dsimp only at h
          exact absurd h (by simp)
      | some p =>
          rw [hc] at h
          dsimp only at h
          simp only [Option.some_inj] at h
          by_cases hlt : s.bestPct < p
          · rw [if_pos hlt] at h
            rw [← h]
            exact le_of_lt hlt
          · rw [if_neg hlt] at h
            rw [← h]

theorem runRows_mono (af : AlignFn) (q : PyStr) (rows : List GeneRow) :
    ∀ s s2, runRows af q (some s) rows = some s2 → s.bestPct ≤ s2.bestPct := by
  induction rows with
  | nil =>
      intro s s2 h
      simp only [runRows, Option.some_inj] at h
      rw [← h]
  | cons row rest ih =>
      intro s s2 h
      simp only [runRows] at h
      cases hstep : loopStep af q s row with
      | none => rw [hstep, runRows_none] at h; exact absurd h (by simp)
      | some s1 =>
          rw [hstep] at h
          exact le_trans (loopStep_mono af q s row s1 hstep) (ih s1 s2 h)

theorem loopStep_no_replace (af : AlignFn) (q : PyStr) (s : BestState) (row : GeneRow)
    (p : ℚ) (hc : rowCandidate af q row = some (some p)) (hle : p ≤ s.bestPct) :
    loopStep af q s row = some s := by
  unfold loopStep
  rw [hc]
  dsimp only
  rw [if_neg (not_lt.mpr hle)]

theorem loopStep_reaches (af : AlignFn) (q : PyStr) (s : BestState) (row : GeneRow)
    (p : ℚ) (hc : rowCandidate af q row = some (some p)) :
    ∃ s2, loopStep af q s row = some s2 ∧ p ≤ s2.bestPct := by
  unfold loopStep
  rw [hc]
  dsimp only
  by_cases hlt : s.bestPct < p
  · rw [if_pos hlt]
    exact ⟨_, rfl, le_refl p⟩
  · rw [if_neg hlt]
    exact ⟨s, rfl, not_lt.mp hlt⟩

/-- C2: the loop holds one incumbent (`BestState`) and replaces it only on
strict improvement: a row whose percentage does not exceed the incumbent's
leaves the state unchanged (first conjunct); consequently, when rows `a`
and `b` achieve the same percent identity and `a` comes first in table
order, removing the later row `b` does not change the outcome of the run —
the first-seen row is the one retained (second conjunct). -/
theorem C2_strict_improvement_first_seen (af : AlignFn) (q : PyStr) (a b : GeneRow)
    (p : ℚ) (l1 l2 l3 : List GeneRow)
    (ha : rowCandidate af q a = some (some p))
    (hb : rowCandidate af q b = some (some p)) :
    (∀ s : BestState, p ≤ s.bestPct → loopStep af q s b = some s) ∧
    runRows af q (some initState) (l1 ++ a :: (l2 ++ b :: l3)) =
      runRows af q (some initState) (l1 ++ a :: (l2 ++ l3)) := by
  constructor
  · intro s hs
    exact loopStep_no_replace af q s b p hb hs
  · have hsplit1 : l1 ++ a :: (l2 ++ b :: l3) = (l1 ++ a :: l2) ++ (b :: l3) := by simp
    have hsplit2 : l1 ++ a :: (l2 ++ l3) = (l1 ++ a :: l2) ++ l3 := by simp
    rw [hsplit1, hsplit2, runRows_append af q (l1 ++ a :: l2) (b :: l3),
      runRows_append af q (l1 ++ a :: l2) l3]
    cases hmid : runRows af q (some initState) (l1 ++ a :: l2) with
    | none => rw [runRows_none, runRows_none]
    | some s3 =>
        have hple : p ≤ s3.bestPct := by
          rw [runRows_append] at hmid
          cases h1 : runRows af q (some initState) l1 with
          | none => rw [h1, runRows_none] at hmid; exact absurd hmid (by simp)
          | some s1 =>
              rw [h1] at hmid
              obtain ⟨s2, hstep, hp2⟩ := loopStep_reaches af q s1 a p ha
              simp only [runRows] at hmid
              rw [hstep] at hmid
              exact le_trans hp2 (runRows_mono af q l2 s2 s3 hmid)
        have hb3 : loopStep af q s3 b = some s3 :=
          loopStep_no_replace af q s3 b p hb hple
        calc runRows af q (some s3) (b :: l3)
            = runRows af q (loopStep af q s3 b) l3 := by simp only [runRows]
          _ = runRows af q (some s3) l3 := by rw [hb3]

/-- Witness for C2: two rows with identical reference sequence (hence
identical 100% identity) — dropping the second leaves the run unchanged. -/
theorem C2_strict_improvement_first_seen_witness :
    runRows (fun q r _ _ _ _ => [⟨q, r, 0, 0, 0⟩]) [65] (some initState)
        ([] ++ (⟨[65], [71], [], 1⟩ : GeneRow) :: ([] ++ (⟨[65], [72], [], 2⟩ : GeneRow) :: [])) =
      runRows (fun q r _ _ _ _ => [⟨q, r, 0, 0, 0⟩]) [65] (some initState)
        ([] ++ (⟨[65], [71], [], 1⟩ : GeneRow) :: ([] ++ [])) :=
  (C2_strict_improvement_first_seen (fun q r _ _ _ _ => [⟨q, r, 0, 0, 0⟩]) [65]
    ⟨[65], [71], [], 1⟩ ⟨[65], [72], [], 2⟩ 100 [] [] []
    (by norm_num [rowCandidate, match_percentage, countMatches, alignment_length, gapChar])
    (by norm_num [rowCandidate, match_percentage, countMatches, alignment_length, gapChar])).2

/-! ## C5: risk labels and thresholds of the counterfeit tool -/

/-- C5: for every compared drug row with an existing reference entry, the
risk label is `assign_risk` of the two match booleans and the relative
weight deviation (first conjunct, grounding the per-drug path); with both
booleans true the per-drug path yields Low/Medium/High at thresholds
`0.02 * mw` and `0.50 * mw` (2% and 50% of the reference molecular weight,
compared against the relative deviation), any false boolean yields High;
the bulk path yields Low/Medium/High at 0.2 and 5 on the percent
deviation, any false boolean yields High; and the bulk path's label is
`bulkRisk` of the set-equality, string-equality and percent-deviation
fields (last conjunct). -/
theorem C5_risk_rules (aim fm : Bool) (d mw wd : ℚ) (input : InputDrug) (r : VerifiedRow) :
    ((compareRow input r).risk =
      assign_risk (r.active_ingredient == input.active_ingredient)
        (formulaMatch r.molecular_formula input.molecular_formula)
        (|r.molecular_weight - input.molecular_weight| / r.molecular_weight)
        r.molecular_weight) ∧
    (0 < mw → aim = true → fm = true →
      (d ≤ 0.02 * mw → assign_risk aim fm d mw = "Low Risk") ∧
      (0.02 * mw < d → d ≤ 0.50 * mw → assign_risk aim fm d mw = "Medium Risk") ∧
      (0.50 * mw < d → assign_risk aim fm d mw = "High Risk")) ∧
    ((aim = false ∨ fm = false) → assign_risk aim fm d mw = "High Risk") ∧
    (aim = true → fm = true →
      (wd ≤ 0.2 → bulkRisk aim fm wd = "Low") ∧
      (0.2 < wd → wd ≤ 5 → bulkRisk aim fm wd = "Medium") ∧
      (5 < wd → bulkRisk aim fm wd = "High")) ∧
    ((aim = false ∨ fm = false) → bulkRisk aim fm wd = "High") ∧
    (∀ (v2 : List VerifiedRow) (cr : CtftRow) (vr : VerifiedRow) (rest : List VerifiedRow),
      v2.filter (fun x => lowerStr (x.drug_name.getD []) == lowerStr (cr.drug_name.getD [])) =
        vr :: rest →
      (bulkOne v2 cr).risk =
        bulkRisk (setEqB (splitCS cr.active_ingredient) (splitCS vr.active_ingredient))
          (cr.molecular_formula == vr.molecular_formula)
          (|cr.molecular_weight - vr.molecular_weight| / vr.molecular_weight * 100)) := by
  refine ⟨rfl, ?_, ?_, ?_, ?_, ?_⟩
  · rintro hmw rfl rfl
    refine ⟨fun hd => ?_, fun h1 h2 => ?_, fun h1 => ?_⟩
    · unfold assign_risk
      simp only [Bool.and_self, if_true]
      rw [if_pos hd]
    · unfold assign_risk
      simp only [Bool.and_self, if_true]
      rw [if_neg (not_le.mpr h1), if_pos h2]
    · unfold assign_risk
      simp only [Bool.and_self, if_true]
      have hlowhigh : (0.02 : ℚ) * mw < 0.50 * mw :=
        mul_lt_mul_of_pos_right (by norm_num) hmw
      rw [if_neg (not_le.mpr (lt_trans hlowhigh h1)), if_neg (not_le.mpr h1)]
  · intro h
    unfold assign_risk
    rcases h with rfl | rfl
    · cases fm <;> rfl
    · cases aim <;> rfl
  · rintro rfl rfl
    refine ⟨fun hd => ?_, fun h1 h2 => ?_, fun h1 => ?_⟩
    · unfold bulkRisk
      simp only [Bool.and_self, if_true]
      rw [if_pos hd]
    · unfold bulkRisk
      simp only [Bool.and_self, if_true]
      rw [if_neg (not_le.mpr h1), if_pos h2]
    · unfold bulkRisk
      simp only [Bool.and_self, if_true]
      rw [if_neg (not_le.mpr (lt_trans (by norm_num) h1)), if_neg (not_le.mpr h1)]
  · intro h
    unfold bulkRisk
    rcases h with rfl | rfl
    · cases fm <;> rfl
    · cases aim <;> rfl
  · intro v2 cr vr rest h
    unfold bulkOne
    dsimp only
    rw [h]

/-- Witness for C5: concrete deviations of 1%, 30% and 80% of a reference
weight 100 get Low/Medium/High in the per-drug path; a false boolean gets
High; the bulk path labels 0.1, 3 and 80 percent Low/Medium/High. -/
theorem C5_risk_rules_witness :
    assign_risk true true 1 100 = "Low Risk" ∧
    assign_risk true true 30 100 = "Medium Risk" ∧
    assign_risk true true 80 100 = "High Risk" ∧
    assign_risk false true 1 100 = "High Risk" ∧
    bulkRisk true true (1/10) = "Low" ∧
    bulkRisk true true 3 = "Medium" ∧
    bulkRisk true true 80 = "High" := by
  have dummyI : InputDrug := ⟨[], [], [], 1⟩
  have dummyV : VerifiedRow := ⟨none, [], [], 1⟩
  exact ⟨((C5_risk_rules true true 1 100 0 dummyI dummyV).2.1 (by norm_num) rfl rfl).1 (by norm_num),
    ((C5_risk_rules true true 30 100 0 dummyI dummyV).2.1 (by norm_num) rfl rfl).2.1
      (by norm_num) (by norm_num),
    ((C5_risk_rules true true 80 100 0 dummyI dummyV).2.1 (by norm_num) rfl rfl).2.2 (by norm_num),
    (C5_risk_rules false true 1 100 0 dummyI dummyV).2.2.1 (Or.inl rfl),
    ((C5_risk_rules true true 0 0 (1/10) dummyI dummyV).2.2.2.1 rfl rfl).1 (by norm_num),
    ((C5_risk_rules true true 0 0 3 dummyI dummyV).2.2.2.1 rfl rfl).2.1 (by norm_num) (by norm_num),
    ((C5_risk_rules true true 0 0 80 dummyI dummyV).2.2.2.1 rfl rfl).2.2 (by norm_num)⟩

/-! ## C6: missing reference entry -/

/-- C6 counterexample: in the per-drug path, an input drug whose name has
no entry in the verified table produces an *empty* result table — no row
at all, in particular no row with an "Unknown" risk (the source only
prints a console notice). This refutes the claim that both paths report
the risk as "Unknown". -/
theorem C6_per_drug_missing_gives_empty :
    compare_drug ⟨codes "Tylenol", codes "acetaminophen", codes "C8H9NO2", 151⟩
      [⟨some (codes "Aspirin"), codes "aspirin", codes "C9H8O4", 180⟩] = [] := by decide

/-- C6 amended: a missing reference entry is recoverable in both paths,
but only the bulk path reports an "Unknown" risk: the per-drug path
returns an empty result table, while the bulk path's row carries risk
"Unknown - Drug not found". -/
theorem C6_missing_reference_recoverable (input : InputDrug) (verified : List VerifiedRow)
    (v2 : List VerifiedRow) (r : CtftRow) :
    (verified.filter (fun vr => nameMatch vr input) = [] →
      compare_drug input verified = []) ∧
    (v2.filter (fun vr => lowerStr (vr.drug_name.getD []) ==
        lowerStr (r.drug_name.getD [])) = [] →
      (bulkOne v2 r).risk = "Unknown - Drug not found") := by
  constructor
  · intro h
    unfold compare_drug
    rw [h]
    rfl
  · intro h
    unfold bulkOne
    dsimp only
    rw [h]

/-- Witness for C6: a concrete absent drug name in each path. -/
theorem C6_missing_reference_recoverable_witness :
    compare_drug ⟨codes "Tylenol", codes "acetaminophen", codes "C8H9NO2", 151⟩
        [⟨some (codes "Aspirin"), codes "aspirin", codes "C9H8O4", 180⟩] = [] ∧
      (bulkOne [⟨some (codes "Aspirin"), codes "aspirin", codes "C9H8O4", 180⟩]
        ⟨some (codes "Tylenol"), codes "acetaminophen", codes "C8H9NO2", 151⟩).risk =
        "Unknown - Drug not found" :=
  ⟨(C6_missing_reference_recoverable
      ⟨codes "Tylenol", codes "acetaminophen", codes "C8H9NO2", 151⟩
      [⟨some (codes "Aspirin"), codes "aspirin", codes "C9H8O4", 180⟩] [] ⟨none, [], [], 1⟩).1
      (by decide),
   (C6_missing_reference_recoverable ⟨[], [], [], 1⟩ []
      [⟨some (codes "Aspirin"), codes "aspirin", codes "C9H8O4", 180⟩]
      ⟨some (codes "Tylenol"), codes "acetaminophen", codes "C8H9NO2", 151⟩).2 (by decide)⟩

/-! ## C9: the reference tables are not read-only in the bulk path -/

theorem mapIdOn {α : Type} (f : α → α) (l : List α) (h : ∀ a ∈ l, f a = a) :
    l.map f = l := by
  induction l with
  | nil => rfl
  | cons x xs ih =>
      simp only [List.map_cons]
      rw [h x (List.mem_cons_self x xs), ih (fun a ha => h a (List.mem_cons_of_mem x ha))]

/-- C9 counterexample: a verified table holding one row with a NaN drug
name is changed by running the bulk comparison — the in-place
`fillna('').astype(str)` on its `drug_name` column rewrites the NaN to the
empty string, so the table's contents after the run differ from before,
refuting the read-only claim. -/
theorem C9_bulk_run_mutates_table :
    (compare_counterfeit_dataset [] [⟨none, codes "aspirin", codes "C9H8O4", 180⟩]).2.1 ≠
      [⟨none, codes "aspirin", codes "C9H8O4", 180⟩] := by decide

/-- C9 amended: the bulk path rewrites the drug-name columns of both
loaded tables in place, coercing missing names to the empty string; when
every drug name is present the row contents of both tables are unchanged
by the run, and the only other mutation is the add-new-drug path's
appending of a row. (The per-drug path copies the filtered rows before
annotating them, leaving row contents untouched.) -/
theorem C9_tables_preserved_without_nan (ctft : List CtftRow) (verified : List VerifiedRow)
    (x : VerifiedRow)
    (hv : ∀ r ∈ verified, r.drug_name ≠ none) (hc : ∀ r ∈ ctft, r.drug_name ≠ none) :
    (compare_counterfeit_dataset ctft verified).2.1 = verified ∧
    (compare_counterfeit_dataset ctft verified).2.2 = ctft ∧
    addNewDrug verified x = verified ++ [x] := by
  refine ⟨?_, ?_, rfl⟩
  · unfold compare_counterfeit_dataset
    dsimp only
    apply mapIdOn
    intro r hr
    unfold fillV
    cases hrn : r.drug_name with
    | none => exact absurd hrn (hv r hr)
    | some n =>
        simp only [Option.getD]
        cases r
        simp_all
  · unfold compare_counterfeit_dataset
    dsimp only
    apply mapIdOn
    intro r hr
    unfold fillC
    cases hrn : r.drug_name with
    | none => exact absurd hrn (hc r hr)
    | some n =>
        simp only [Option.getD]
        cases r
        simp_all

/-- Witness for C9 on concrete NaN-free tables. -/
theorem C9_tables_preserved_without_nan_witness :
    (compare_counterfeit_dataset [⟨some (codes "Advil"), codes "ibuprofen", codes "C13H18O2", 206⟩]
        [⟨some (codes "Aspirin"), codes "aspirin", codes "C9H8O4", 180⟩]).2.1 =
      [⟨some (codes "Aspirin"), codes "aspirin", codes "C9H8O4", 180⟩] ∧
    (compare_counterfeit_dataset [⟨some (codes "Advil"), codes "ibuprofen", codes "C13H18O2", 206⟩]
        [⟨some (codes "Aspirin"), codes "aspirin", codes "C9H8O4", 180⟩]).2.2 =
      [⟨some (codes "Advil"), codes "ibuprofen", codes "C13H18O2", 206⟩] ∧
    addNewDrug [⟨some (codes "Aspirin"), codes "aspirin", codes "C9H8O4", 180⟩]
        ⟨some (codes "Advil"), codes "ibuprofen", codes "C13H18O2", 206⟩ =
      [⟨some (codes "Aspirin"), codes "aspirin", codes "C9H8O4", 180⟩] ++
        [⟨some (codes "Advil"), codes "ibuprofen", codes "C13H18O2", 206⟩] :=
  C9_tables_preserved_without_nan
    [⟨some (codes "Advil"), codes "ibuprofen", codes "C13H18O2", 206⟩]
    [⟨some (codes "Aspirin"), codes "aspirin", codes "C9H8O4", 180⟩]
    ⟨some (codes "Advil"), codes "ibuprofen", codes "C13H18O2", 206⟩
    (by decide) (by decide)

/-! ## C8: the molecular-formula comparator -/

theorem addAtom_keys (m : List (PyStr × Nat)) (k : PyStr) (v : Nat) :
    (addAtom m k v).map Prod.fst =
      if k ∈ m.map Prod.fst then m.map Prod.fst else m.map Prod.fst ++ [k] := by
  induction m with
  | nil => simp [addAtom]
  | cons kv rest ih =>
      obtain ⟨k2, v2⟩ := kv
      by_cases hk : k2 = k
      · subst hk
        simp [addAtom]
      · simp only [addAtom, if_neg hk, List.map_cons, ih]
        by_cases hm : k ∈ rest.map Prod.fst
        · rw [if_pos hm, if_pos (List.mem_cons_of_mem k2 hm)]
        · rw [if_neg hm, if_neg (by
            intro hcon
            rcases List.mem_cons.mp hcon with h1 | h1
            · exact hk h1.symm
            · exact hm h1)]
          rfl

theorem addAtom_nodup (m : List (PyStr × Nat)) (k : PyStr) (v : Nat)
    (h : (m.map Prod.fst).Nodup) : ((addAtom m k v).map Prod.fst).Nodup := by
  rw [addAtom_keys]
  by_cases hm : k ∈ m.map Prod.fst
  · rw [if_pos hm]; exact h
  · rw [if_neg hm]
    rw [List.nodup_append]
    exact ⟨h, List.nodup_singleton k, by simpa using hm⟩

theorem foldl_addAtom_nodup (toks : List (PyStr × PyStr)) :
    ∀ m : List (PyStr × Nat), (m.map Prod.fst).Nodup →
      ((toks.foldl (fun m kv =>
        addAtom m kv.1 (if kv.2 = [] then 1 else digitsVal kv.2)) m).map Prod.fst).Nodup := by
  induction toks with
  | nil => intro m h; exact h
  | cons t ts ih =>
      intro m h
      simp only [List.foldl_cons]
      exact ih _ (addAtom_nodup m t.1 _ h)

theorem extract_atoms_nodup (f : PyStr) :
    ((extract_atoms f).map Prod.fst).Nodup := by
  unfold extract_atoms
  exact foldl_addAtom_nodup (tokenize f) [] (by simp)

theorem dlookup_some_mem {k : PyStr} {v : Nat} :
    ∀ {m : List (PyStr × Nat)}, dlookup k m = some v → (k, v) ∈ m := by
  intro m
  induction m with
  | nil => intro h; exact absurd h (by simp [dlookup])
  | cons kv rest ih =>
      obtain ⟨k2, v2⟩ := kv
      intro h
      unfold dlookup at h
      by_cases hk : k2 = k
      · rw [if_pos hk] at h
        subst hk
        rw [Option.some_inj] at h
        subst h
        exact List.mem_cons_self _ _
      · rw [if_neg hk] at h
        exact List.mem_cons_of_mem _ (ih h)

theorem mem_dlookup {k : PyStr} {v : Nat} :
    ∀ {m : List (PyStr × Nat)}, (m.map Prod.fst).Nodup → (k, v) ∈ m →
      dlookup k m = some v := by
  intro m
  induction m with
  | nil => intro _ h; exact absurd h (by simp)
  | cons kv rest ih =>
      obtain ⟨k2, v2⟩ := kv
      intro hnd h
      simp only [List.map_cons, List.nodup_cons] at hnd
      unfold dlookup
      rcases List.mem_cons.mp h with h1 | h1
      · have hk : k = k2 := congrArg Prod.fst h1
        have hv : v = v2 := congrArg Prod.snd h1
        rw [if_pos hk.symm, hv]
      · by_cases hk : k2 = k
        · exfalso
          apply hnd.1
          subst hk
          exact List.mem_map_of_mem Prod.fst h1
        · rw [if_neg hk]
          exact ih hnd.2 h1

theorem dictEqB_iff (a b : List (PyStr × Nat))
    (hna : (a.map Prod.fst).Nodup) (hnb : (b.map Prod.fst).Nodup) :
    dictEqB a b = true ↔ ∀ k, dlookup k a = dlookup k b := by
  unfold dictEqB
  rw [Bool.and_eq_true]
  simp only [List.all_eq_true, beq_iff_eq]
  constructor
  · intro ⟨h1, h2⟩ k
    cases ha : dlookup k a with
    | some v =>
        have hm := dlookup_some_mem ha
        exact (h1 (k, v) hm).symm
    | none =>
        cases hb : dlookup k b with
        | none => rfl
        | some w =>
            have hm := dlookup_some_mem hb
            rw [h2 (k, w) hm] at ha
            exact absurd ha (by simp)
  · intro h
    constructor
    · intro kv hm
      rw [← h kv.1]
      exact mem_dlookup hna hm
    · intro kv hm
      rw [h kv.1]
      exact mem_dlookup hnb hm

/-- C8: the formula comparator parses each formula into an atom-count
mapping (uppercase letter plus lowercase letters, optional digits, absent
digit = 1, repeated symbols summed — witnessed by the concrete parses of
"C9H8O4" and "CH3COOH") and judges two formulas equal iff the mappings are
exactly equal (same keys with the same counts, i.e. equal lookups
everywhere); hence order independence: "C9H8O4" equals "H8C9O4" while
"C9H8O4" differs from "C9H8O5". -/
theorem C8_formula_comparator :
    (∀ f1 f2, formulaMatch f1 f2 = true ↔
      ∀ k, dlookup k (extract_atoms f1) = dlookup k (extract_atoms f2)) ∧
    formulaMatch (codes "C9H8O4") (codes "H8C9O4") = true ∧
    formulaMatch (codes "C9H8O4") (codes "C9H8O5") = false ∧
    extract_atoms (codes "C9H8O4") = [(codes "C", 9), (codes "H", 8), (codes "O", 4)] ∧
    extract_atoms (codes "CH3COOH") = [(codes "C", 2), (codes "H", 4), (codes "O", 2)] := by
  refine ⟨fun f1 f2 =>
    dictEqB_iff (extract_atoms f1) (extract_atoms f2)
      (extract_atoms_nodup f1) (extract_atoms_nodup f2), ?_, ?_, ?_, ?_⟩ <;>
    simp [formulaMatch, extract_atoms, codes, tokenize, isUpperCh, isLowerCh, isDigitCh,
      digitsVal, addAtom, dictEqB, dlookup]
